import Mathlib

/-!
Verification development for the andesite-rs client library
(src/client.rs, src/player.rs, src/model.rs; the node module is not part
of the sources and is modelled from the specification where needed).

Conventions of the shallow embedding:
* `u64` fields are embedded as `Nat`, `i64` fields as `Int` (values are
  unbounded in the model; the claims under study never depend on wrap-around).
* `f64` fields are embedded as `ℚ`: serde_json prints an `f64` with the
  shortest representation that parses back to the same `f64`, so a JSON
  number round-trips exactly, which is what the rational model captures.
* `GuildId` (a `u64` newtype) is embedded as `Nat`; `SocketAddr` as an
  abstract `Nat` address.
* The concurrent `DashMap`s are embedded as association lists; `DashMap`
  keys are unique, and the list operations below preserve that discipline.
-/

namespace Andesite

/-- JSON values, the target of the serde serializers derived in
`src/model.rs`.  Integers (`u64`/`i64`) and floating-point numbers are kept
in distinct constructors, as in serde_json's `Number`. -/
inductive Json where
  | null : Json
  | bool (b : Bool) : Json
  | int (i : Int) : Json
  | num (q : ℚ) : Json
  | str (s : String) : Json
  | arr (xs : List Json) : Json
  | obj (fs : List (String × Json)) : Json

abbrev GuildId := Nat

/-- `Opcode` from src/model.rs: the type of event that something is. -/
inductive Opcode where
  | empty
  | voiceUpdate
  | play
  | stop
  | pause
  | seek
  | volume
  | filters
  | destroy
  | playerUpdate
  | event
  | stats
deriving DecidableEq, Repr

/-- serde serialization of `Opcode` (`rename_all = "camelCase"`). -/
def opcodeToJson : Opcode → Json
  | .empty => .str "empty"
  | .voiceUpdate => .str "voiceUpdate"
  | .play => .str "play"
  | .stop => .str "stop"
  | .pause => .str "pause"
  | .seek => .str "seek"
  | .volume => .str "volume"
  | .filters => .str "filters"
  | .destroy => .str "destroy"
  | .playerUpdate => .str "playerUpdate"
  | .event => .str "event"
  | .stats => .str "stats"

/-- serde deserialization of `Opcode`. -/
def opcodeFromJson : Json → Option Opcode
  | .str "empty" => some .empty
  | .str "voiceUpdate" => some .voiceUpdate
  | .str "play" => some .play
  | .str "stop" => some .stop
  | .str "pause" => some .pause
  | .str "seek" => some .seek
  | .str "volume" => some .volume
  | .str "filters" => some .filters
  | .str "destroy" => some .destroy
  | .str "playerUpdate" => some .playerUpdate
  | .str "event" => some .event
  | .str "stats" => some .stats
  | _ => none

/-- `SlimVoiceServerUpdate` from src/model.rs. -/
structure SlimVoiceServerUpdate where
  endpoint : Option String
  token : String
deriving DecidableEq, Repr

/-- `VoiceUpdate` from src/model.rs. -/
structure VoiceUpdate where
  op : Opcode
  session_id : String
  guild_id : GuildId
  event : SlimVoiceServerUpdate
deriving DecidableEq, Repr

/-- `Play` from src/model.rs (`start_time`/`end_time` carry
`skip_serializing_if = "Option::is_none"`). -/
structure Play where
  op : Opcode
  guild_id : GuildId
  track : String
  start_time : Option Nat
  end_time : Option Nat
  no_replace : Bool
deriving DecidableEq, Repr

/-- `Stop` from src/model.rs. -/
structure Stop where
  op : Opcode
  guild_id : GuildId
deriving DecidableEq, Repr

/-- `Pause` from src/model.rs. -/
structure Pause where
  op : Opcode
  guild_id : GuildId
  pause : Bool
deriving DecidableEq, Repr

/-- `Seek` from src/model.rs. -/
structure Seek where
  op : Opcode
  guild_id : GuildId
  position : Int
deriving DecidableEq, Repr

/-- `Volume` from src/model.rs. -/
structure Volume where
  op : Opcode
  guild_id : GuildId
  volume : Int
deriving DecidableEq, Repr

/-- `Karaoke` from src/model.rs; `enabled` is `#[serde(skip_serializing)]`
but has no default, so deserialization still requires it. -/
structure Karaoke where
  level : ℚ
  mono_level : ℚ
  filter_band : ℚ
  filter_width : ℚ
  enabled : Bool
deriving DecidableEq, Repr

/-- `Timescale` from src/model.rs. -/
structure Timescale where
  speed : ℚ
  pitch : ℚ
  rate : ℚ
  enabled : Bool
deriving DecidableEq, Repr

/-- `Tremolo` from src/model.rs. -/
structure Tremolo where
  frequency : ℚ
  depth : ℚ
  enabled : Bool
deriving DecidableEq, Repr

/-- `Vibrato` from src/model.rs. -/
structure Vibrato where
  frequency : ℚ
  depth : ℚ
  enabled : Bool
deriving DecidableEq, Repr

/-- `EqualizerBand` from src/model.rs. -/
structure EqualizerBand where
  band : Int
  gain : ℚ
deriving DecidableEq, Repr

/-- `Equalizer` from src/model.rs. -/
structure Equalizer where
  bands : List EqualizerBand
  enabled : Bool
deriving DecidableEq, Repr

/-- `Filters` from src/model.rs (each filter field carries
`skip_serializing_if = "Option::is_none"`). -/
structure Filters where
  op : Opcode
  guild_id : GuildId
  karaoke : Option Karaoke
  timescale : Option Timescale
  tremolo : Option Tremolo
  vibrato : Option Vibrato
  equalizer : Option Equalizer
deriving DecidableEq, Repr

/-- `Destroy` from src/model.rs. -/
structure Destroy where
  op : Opcode
  guild_id : GuildId
deriving DecidableEq, Repr

/-- `OutgoingEvent` from src/model.rs: `#[serde(untagged)]`, variants in
declaration order. -/
inductive OutgoingEvent where
  | voiceUpdate (v : VoiceUpdate)
  | play (p : Play)
  | stop (s : Stop)
  | pause (p : Pause)
  | seek (s : Seek)
  | volume (v : Volume)
  | filters (f : Filters)
  | destroy (d : Destroy)
deriving DecidableEq, Repr

/-- serde serialization of a `u64` (embedded `Nat`) as a JSON integer. -/
def natToJson (n : Nat) : Json := .int (Int.ofNat n)

/-- serde serialization of `SlimVoiceServerUpdate` (`endpoint` is a plain
`Option` with no skip attribute, so `None` serializes as JSON null). -/
def serSlimVoiceServerUpdate (e : SlimVoiceServerUpdate) : Json :=
  .obj [("endpoint", match e.endpoint with | none => .null | some s => .str s),
        ("token", .str e.token)]

/-- serde serialization of `VoiceUpdate`. -/
def serVoiceUpdate (v : VoiceUpdate) : Json :=
  .obj [("op", opcodeToJson v.op), ("sessionId", .str v.session_id),
        ("guildId", natToJson v.guild_id),
        ("event", serSlimVoiceServerUpdate v.event)]

/-- serde serialization of `Play`. -/
def serPlay (p : Play) : Json :=
  .obj ([("op", opcodeToJson p.op), ("guildId", natToJson p.guild_id),
         ("track", .str p.track)]
    ++ (match p.start_time with | none => [] | some n => [("startTime", natToJson n)])
    ++ (match p.end_time with | none => [] | some n => [("endTime", natToJson n)])
    ++ [("noReplace", .bool p.no_replace)])

/-- serde serialization of `Stop`. -/
def serStop (s : Stop) : Json :=
  .obj [("op", opcodeToJson s.op), ("guildId", natToJson s.guild_id)]

/-- serde serialization of `Pause`. -/
def serPause (p : Pause) : Json :=
  .obj [("op", opcodeToJson p.op), ("guildId", natToJson p.guild_id),
        ("pause", .bool p.pause)]

/-- serde serialization of `Seek`. -/
def serSeek (s : Seek) : Json :=
  .obj [("op", opcodeToJson s.op), ("guildId", natToJson s.guild_id),
        ("position", .int s.position)]

/-- serde serialization of `Volume`. -/
def serVolume (v : Volume) : Json :=
  .obj [("op", opcodeToJson v.op), ("guildId", natToJson v.guild_id),
        ("volume", .int v.volume)]

/-- serde serialization of `Karaoke` (`enabled` is skipped). -/
def serKaraoke (k : Karaoke) : Json :=
  .obj [("level", .num k.level), ("monoLevel", .num k.mono_level),
        ("filterBand", .num k.filter_band), ("filterWidth", .num k.filter_width)]

/-- serde serialization of `Timescale` (`enabled` is skipped). -/
def serTimescale (t : Timescale) : Json :=
  .obj [("speed", .num t.speed), ("pitch", .num t.pitch), ("rate", .num t.rate)]

/-- serde serialization of `Tremolo` (`enabled` is skipped). -/
def serTremolo (t : Tremolo) : Json :=
  .obj [("frequency", .num t.frequency), ("depth", .num t.depth)]

/-- serde serialization of `Vibrato` (`enabled` is skipped). -/
def serVibrato (v : Vibrato) : Json :=
  .obj [("frequency", .num v.frequency), ("depth", .num v.depth)]

/-- serde serialization of `EqualizerBand`. -/
def serEqualizerBand (b : EqualizerBand) : Json :=
  .obj [("band", .int b.band), ("gain", .num b.gain)]

/-- serde serialization of `Equalizer` (`enabled` is skipped). -/
def serEqualizer (e : Equalizer) : Json :=
  .obj [("bands", .arr (e.bands.map serEqualizerBand))]

/-- serde serialization of `Filters`. -/
def serFilters (f : Filters) : Json :=
  .obj ([("op", opcodeToJson f.op), ("guildId", natToJson f.guild_id)]
    ++ (match f.karaoke with | none => [] | some k => [("karaoke", serKaraoke k)])
    ++ (match f.timescale with | none => [] | some t => [("timescale", serTimescale t)])
    ++ (match f.tremolo with | none => [] | some t => [("tremolo", serTremolo t)])
    ++ (match f.vibrato with | none => [] | some v => [("vibrato", serVibrato v)])
    ++ (match f.equalizer with | none => [] | some e => [("equalizer", serEqualizer e)]))

/-- serde serialization of `Destroy`. -/
def serDestroy (d : Destroy) : Json :=
  .obj [("op", opcodeToJson d.op), ("guildId", natToJson d.guild_id)]

/-- serde serialization of `OutgoingEvent` (untagged: the variant's own
representation). -/
def serOutgoingEvent : OutgoingEvent → Json
  | .voiceUpdate v => serVoiceUpdate v
  | .play p => serPlay p
  | .stop s => serStop s
  | .pause p => serPause p
  | .seek s => serSeek s
  | .volume v => serVolume v
  | .filters f => serFilters f
  | .destroy d => serDestroy d

/-- Field lookup in a JSON object body (serde reads the first occurrence;
the serializers above never emit duplicate keys). -/
def getField (fs : List (String × Json)) (k : String) : Option Json :=
  fs.lookup k

/-- Deserialize a required field with the given field deserializer; a
missing or ill-typed field is an error (`none`). -/
def reqField (fs : List (String × Json)) (k : String) (p : Json → Option α) : Option α :=
  (getField fs k).bind p

/-- Deserialize an `Option<T>` field: serde treats a missing field and a
JSON null both as `None`, otherwise the value must deserialize as `T`. -/
def optField (fs : List (String × Json)) (k : String) (p : Json → Option α) :
    Option (Option α) :=
  match getField fs k with
  | none => some none
  | some .null => some none
  | some j => (p j).map some

/-- Deserialize a JSON string. -/
def asStr : Json → Option String
  | .str s => some s
  | _ => none

/-- Deserialize a JSON boolean. -/
def asBool : Json → Option Bool
  | .bool b => some b
  | _ => none

/-- Deserialize an `i64` (embedded `Int`) from a JSON integer. -/
def asInt : Json → Option Int
  | .int i => some i
  | _ => none

/-- Deserialize a `u64` (embedded `Nat`) from a non-negative JSON integer. -/
def asNat : Json → Option Nat
  | .int (Int.ofNat n) => some n
  | _ => none

/-- Deserialize a JSON number as an `f64` (embedded `ℚ`). -/
def asNum : Json → Option ℚ
  | .num q => some q
  | _ => none

/-- serde deserialization of `SlimVoiceServerUpdate`. -/
def parseSlimVoiceServerUpdate : Json → Option SlimVoiceServerUpdate
  | .obj fs =>
    match optField fs "endpoint" asStr, reqField fs "token" asStr with
    | some e, some t => some ⟨e, t⟩
    | _, _ => none
  | _ => none

/-- serde deserialization of the fields of `VoiceUpdate`. -/
def parseVoiceUpdate (fs : List (String × Json)) : Option VoiceUpdate :=
  match reqField fs "op" opcodeFromJson, reqField fs "sessionId" asStr,
      reqField fs "guildId" asNat, reqField fs "event" parseSlimVoiceServerUpdate with
  | some op, some sid, some g, some ev => some ⟨op, sid, g, ev⟩
  | _, _, _, _ => none

/-- serde deserialization of the fields of `Play`. -/
def parsePlay (fs : List (String × Json)) : Option Play :=
  match reqField fs "op" opcodeFromJson, reqField fs "guildId" asNat,
      reqField fs "track" asStr, optField fs "startTime" asNat,
      optField fs "endTime" asNat, reqField fs "noReplace" asBool with
  | some op, some g, some tr, some st, some et, some nr =>
    some ⟨op, g, tr, st, et, nr⟩
  | _, _, _, _, _, _ => none

/-- serde deserialization of the fields of `Stop`. -/
def parseStop (fs : List (String × Json)) : Option Stop :=
  match reqField fs "op" opcodeFromJson, reqField fs "guildId" asNat with
  | some op, some g => some ⟨op, g⟩
  | _, _ => none

/-- serde deserialization of the fields of `Pause`. -/
def parsePause (fs : List (String × Json)) : Option Pause :=
  match reqField fs "op" opcodeFromJson, reqField fs "guildId" asNat,
      reqField fs "pause" asBool with
  | some op, some g, some b => some ⟨op, g, b⟩
  | _, _, _ => none

/-- serde deserialization of the fields of `Seek`. -/
def parseSeek (fs : List (String × Json)) : Option Seek :=
  match reqField fs "op" opcodeFromJson, reqField fs "guildId" asNat,
      reqField fs "position" asInt with
  | some op, some g, some p => some ⟨op, g, p⟩
  | _, _, _ => none

/-- serde deserialization of the fields of `Volume`. -/
def parseVolume (fs : List (String × Json)) : Option Volume :=
  match reqField fs "op" opcodeFromJson, reqField fs "guildId" asNat,
      reqField fs "volume" asInt with
  | some op, some g, some v => some ⟨op, g, v⟩
  | _, _, _ => none

/-- serde deserialization of `Karaoke`; `enabled` is required because
`skip_serializing` adds no deserialization default. -/
def parseKaraoke : Json → Option Karaoke
  | .obj fs =>
    match reqField fs "level" asNum, reqField fs "monoLevel" asNum,
        reqField fs "filterBand" asNum, reqField fs "filterWidth" asNum,
        reqField fs "enabled" asBool with
    | some l, some m, some b, some w, some e => some ⟨l, m, b, w, e⟩
    | _, _, _, _, _ => none
  | _ => none

/-- serde deserialization of `Timescale`. -/
def parseTimescale : Json → Option Timescale
  | .obj fs =>
    match reqField fs "speed" asNum, reqField fs "pitch" asNum,
        reqField fs "rate" asNum, reqField fs "enabled" asBool with
    | some s, some p, some r, some e => some ⟨s, p, r, e⟩
    | _, _, _, _ => none
  | _ => none

/-- serde deserialization of `Tremolo`. -/
def parseTremolo : Json → Option Tremolo
  | .obj fs =>
    match reqField fs "frequency" asNum, reqField fs "depth" asNum,
        reqField fs "enabled" asBool with
    | some f, some d, some e => some ⟨f, d, e⟩
    | _, _, _ => none
  | _ => none

/-- serde deserialization of `Vibrato`. -/
def parseVibrato : Json → Option Vibrato
  | .obj fs =>
    match reqField fs "frequency" asNum, reqField fs "depth" asNum,
        reqField fs "enabled" asBool with
    | some f, some d, some e => some ⟨f, d, e⟩
    | _, _, _ => none
  | _ => none

/-- serde deserialization of `EqualizerBand`. -/
def parseEqualizerBand : Json → Option EqualizerBand
  | .obj fs =>
    match reqField fs "band" asInt, reqField fs "gain" asNum with
    | some b, some g => some ⟨b, g⟩
    | _, _ => none
  | _ => none

/-- serde deserialization of a JSON array with the given element parser. -/
def parseArr (p : Json → Option α) : Json → Option (List α)
  | .arr xs => xs.mapM p
  | _ => none

/-- serde deserialization of `Equalizer`. -/
def parseEqualizer : Json → Option Equalizer
  | .obj fs =>
    match reqField fs "bands" (parseArr parseEqualizerBand),
        reqField fs "enabled" asBool with
    | some bs, some e => some ⟨bs, e⟩
    | _, _ => none
  | _ => none

/-- serde deserialization of the fields of `Filters`. -/
def parseFilters (fs : List (String × Json)) : Option Filters :=
  match reqField fs "op" opcodeFromJson, reqField fs "guildId" asNat,
      optField fs "karaoke" parseKaraoke, optField fs "timescale" parseTimescale,
      optField fs "tremolo" parseTremolo, optField fs "vibrato" parseVibrato,
      optField fs "equalizer" parseEqualizer with
  | some op, some g, some k, some ts, some tr, some vb, some eq =>
    some ⟨op, g, k, ts, tr, vb, eq⟩
  | _, _, _, _, _, _, _ => none

/-- serde deserialization of the fields of `Destroy`. -/
def parseDestroy (fs : List (String × Json)) : Option Destroy :=
  match reqField fs "op" opcodeFromJson, reqField fs "guildId" asNat with
  | some op, some g => some ⟨op, g⟩
  | _, _ => none

/-- serde deserialization of the untagged `OutgoingEvent`: try each variant
in declaration order, returning the first that succeeds.  Structs derived
without `deny_unknown_fields` ignore extra keys, which is what makes
`Stop` (fields `op`, `guild_id` only) accept the payload of any later
variant. -/
def parseOutgoingEvent : Json → Option OutgoingEvent
  | .obj fs =>
    ((parseVoiceUpdate fs).map .voiceUpdate) <|>
    ((parsePlay fs).map .play) <|>
    ((parseStop fs).map .stop) <|>
    ((parsePause fs).map .pause) <|>
    ((parseSeek fs).map .seek) <|>
    ((parseVolume fs).map .volume) <|>
    ((parseFilters fs).map .filters) <|>
    ((parseDestroy fs).map .destroy)
  | _ => none

/-- What serialize-then-parse actually produces for each outbound command:
`VoiceUpdate`, `Play` and `Stop` survive unchanged, while every other
command is captured by the earlier `Stop` variant of the untagged enum,
keeping only `op` and `guild_id`. -/
def roundTripResult : OutgoingEvent → OutgoingEvent
  | .voiceUpdate v => .voiceUpdate v
  | .play p => .play p
  | .stop s => .stop s
  | .pause p => .stop ⟨p.op, p.guild_id⟩
  | .seek s => .stop ⟨s.op, s.guild_id⟩
  | .volume v => .stop ⟨v.op, v.guild_id⟩
  | .filters f => .stop ⟨f.op, f.guild_id⟩
  | .destroy d => .stop ⟨d.op, d.guild_id⟩

/-- `FiltersState` from src/model.rs (incoming module); the `volume` field
is `#[serde(skip)]` and always `None`. -/
structure FiltersState where
  karaoke : Karaoke
  timescale : Timescale
  tremolo : Tremolo
  vibrato : Vibrato
  equalizer : Equalizer
  volume : Option Unit
deriving DecidableEq, Repr

/-- `FiltersState::new` from src/model.rs: every filter disabled with
zeroed parameters and an empty equalizer band list. -/
def FiltersState.new : FiltersState where
  karaoke := ⟨0, 0, 0, 0, false⟩
  timescale := ⟨0, 0, 0, false⟩
  tremolo := ⟨0, 0, false⟩
  vibrato := ⟨0, 0, false⟩
  equalizer := ⟨[], false⟩
  volume := none

/-- Network address of a node (`SocketAddr`), embedded abstractly. -/
abbrev Addr := Nat

/-- A node handle as the guild-player registry sees it: the `Node` type
lives in the node module (not among the sources), but for the registry and
client operations under study a node is characterized by its address
identity and by the `i32` penalty its cached statistics currently yield
(the only data `Lavalink::best` consumes).  Penalty values are `i32`,
embedded in `Int`. -/
abbrev NodePenalty := Int

/-- `Player` from src/player.rs; the bound node is recorded by its
registry identity (address). -/
structure Player where
  guild_id : GuildId
  node : Addr
  time : Int
  position : Option Int
  paused : Bool
  volume : Int
  filters : FiltersState
deriving DecidableEq, Repr

/-- `Player::new` from src/player.rs. -/
def Player.new (guild_id : GuildId) (node : Addr) : Player where
  guild_id := guild_id
  node := node
  time := 0
  position := none
  paused := false
  volume := 0
  filters := FiltersState.new

/-- The guild-player registry (`PlayerManager`'s `DashMap<GuildId, Player>`),
embedded as an association list with unique keys. -/
abbrev PlayerMap := List (GuildId × Player)

/-- `PlayerManager::get` from src/player.rs. -/
def pmGet (m : PlayerMap) (g : GuildId) : Option Player :=
  m.lookup g

/-- `PlayerManager::get_or_insert` from src/player.rs:
`entry(guild_id).or_insert_with(|| Player::new(guild_id, node))` — returns
the existing player untouched, or inserts and returns a fresh one.  The
returned pair is (the player handed back, the registry afterwards). -/
def pmGetOrInsert (m : PlayerMap) (g : GuildId) (node : Addr) : Player × PlayerMap :=
  match m.lookup g with
  | some p => (p, m)
  | none => (Player.new g node, (g, Player.new g node) :: m)

/-- `PlayerManager::remove` from src/player.rs. -/
def pmRemove (m : PlayerMap) (g : GuildId) : Option (GuildId × Player) × PlayerMap :=
  match m.lookup g with
  | some p => (some (g, p), m.filter (fun x => x.1 ≠ g))
  | none => (none, m)

/-- `ClientError` from src/client.rs. -/
inductive ClientError where
  | nodesUnconfigured
  | sendingVoiceUpdate (source : OutgoingEvent)
deriving DecidableEq, Repr

/-- `i32::MAX`, the initial value of `lowest` in `Lavalink::best` and the
largest value an `i32` penalty can take. -/
def i32Max : Int := 2147483647

/-- The loop of `Lavalink::best` from src/client.rs: fold over the
registered nodes in iteration order, keeping the current `lowest` penalty
and the current candidate; a node is taken only when its penalty is
strictly below `lowest`. -/
def bestLoop : List (Addr × NodePenalty) → Int → Option Addr → Int × Option Addr
  | [], lowest, acc => (lowest, acc)
  | (a, p) :: rest, lowest, acc =>
    if p < lowest then bestLoop rest p (some a) else bestLoop rest lowest acc

/-- `Lavalink::best` from src/client.rs: `lowest` starts at `i32::MAX`,
`best` at `None`; `None` at the end becomes `ClientError::NodesUnconfigured`. -/
def best (nodes : List (Addr × NodePenalty)) : Except ClientError Addr :=
  match (bestLoop nodes i32Max none).2 with
  | some a => .ok a
  | none => .error .nodesUnconfigured

/-- The client state `Lavalink::player` and `Lavalink::remove` operate on:
the node registry (`DashMap<SocketAddr, Node>`, each node summarized by
its current penalty) and the guild-player registry. -/
structure LavalinkState where
  nodes : List (Addr × NodePenalty)
  players : PlayerMap
deriving DecidableEq, Repr

/-- `Lavalink::get` from src/client.rs (node lookup by address). -/
def getNode (st : LavalinkState) (a : Addr) : Option NodePenalty :=
  st.nodes.lookup a

/-- `Lavalink::remove` from src/client.rs: `self.0.nodes.remove(&address)`;
the guild-player registry is not touched. -/
def removeNode (st : LavalinkState) (a : Addr) :
    Option (Addr × NodePenalty) × LavalinkState :=
  match st.nodes.lookup a with
  | some p => (some (a, p), { st with nodes := st.nodes.filter (fun x => x.1 ≠ a) })
  | none => (none, st)

/-- `NodeError` (node module, not among the sources).
Modelled from the spec: the node module's connect
"fails with `ConnectionError` on handshake/transport failure". -/
inductive NodeError where
  | connectionError
deriving DecidableEq, Repr

/-- `Lavalink::add_with_resume` from src/client.rs.  `Node::connect` lives
in the node module (not among the sources); modelled from the spec, it
either fails on the handshake or yields a connected node, so its outcome
is passed as an explicit argument (`none` = handshake failure, `some n` =
a node whose statistics currently yield penalty `n`).  On failure the `?`
operator returns before the registry is touched; on success
`self.0.nodes.insert(address, node)` replaces any prior entry. -/
def addWithResume (st : LavalinkState) (a : Addr) (outcome : Option NodePenalty) :
    Except NodeError NodePenalty × LavalinkState :=
  match outcome with
  | none => (.error .connectionError, st)
  | some n =>
    (.ok n, { st with nodes := (a, n) :: st.nodes.filter (fun x => x.1 ≠ a) })

/-- `Lavalink::player` from src/client.rs: return the existing player if
present; otherwise select `best()` and defer to
`PlayerManager::get_or_insert`. -/
def playerOp (st : LavalinkState) (g : GuildId) :
    Except ClientError Player × LavalinkState :=
  match pmGet st.players g with
  | some p => (.ok p, st)
  | none =>
    match best st.nodes with
    | .error e => (.error e, st)
    | .ok node =>
      let r := pmGetOrInsert st.players g node
      (.ok r.1, { st with players := r.2 })

/-- `StatsMemory` from src/model.rs. -/
structure StatsMemory where
  allocated : Nat
  free : Nat
  reservable : Nat
  used : Nat
deriving DecidableEq, Repr

/-- `StatsCpu` from src/model.rs. -/
structure StatsCpu where
  cores : Nat
  lavalink_load : ℚ
  system_load : ℚ
deriving DecidableEq, Repr

/-- `StatsFrames` from src/model.rs. -/
structure StatsFrames where
  sent : Nat
  nulled : Nat
  deficit : Nat
deriving DecidableEq, Repr

/-- `Stats` from src/model.rs: the health-statistics snapshot a node
caches. -/
structure Stats where
  op : Opcode
  players : Nat
  playing_players : Nat
  uptime : Nat
  memory : StatsMemory
  cpu : StatsCpu
  frames : Option StatsFrames
deriving DecidableEq, Repr

/-- Modelled from the spec: the CPU term of the node module's penalty
score (the node module is not among the sources), §4.3:
`cpuPenalty = 10 * 1.05^(100*systemCpuLoad) - 10`, over the reals. -/
noncomputable def cpuPenalty (load : ℝ) : ℝ :=
  10 * (1.05 : ℝ) ^ ((100 : ℝ) * load) - 10

/-- Modelled from the spec: the deficit-frame term,
`300 * 1.03^(500*deficitFrames/3000) - 300`, and `0` when no frame
statistics are present. -/
noncomputable def deficitPenalty : Option StatsFrames → ℝ
  | none => 0
  | some f => 300 * (1.03 : ℝ) ^ ((500 : ℝ) * (f.deficit : ℝ) / 3000) - 300

/-- Modelled from the spec: the nulled-frame term,
`2 * (300 * 1.03^(500*nulledFrames/3000) - 300)`, and `0` when no frame
statistics are present. -/
noncomputable def nulledPenalty : Option StatsFrames → ℝ
  | none => 0
  | some f => 2 * (300 * (1.03 : ℝ) ^ ((500 : ℝ) * (f.nulled : ℝ) / 3000) - 300)

/-- Modelled from the spec: the node module's penalty of a cached
health-statistics snapshot — a pure, total function of the snapshot,
`playingPlayerCount + floor(cpuPenalty) + floor(deficitPenalty) +
floor(nulledPenalty)`. -/
noncomputable def penalty (s : Stats) : ℤ :=
  (s.playing_players : ℤ) + ⌊cpuPenalty (s.cpu.system_load : ℝ)⌋
    + ⌊deficitPenalty s.frames⌋ + ⌊nulledPenalty s.frames⌋

/-- Modelled from the spec: the penalty of a node given its cached
statistics, which may be absent — "a node with no statistics yet is
assigned the worst possible score", i.e. `i32::MAX` for an `i32` score. -/
noncomputable def nodePenalty : Option Stats → ℤ
  | none => i32Max
  | some s => penalty s

/-- The per-guild key invariant of the guild-player registry: every stored
player's `guild_id` equals the guild key it is stored under. -/
def pmInvariant (m : PlayerMap) : Prop :=
  ∀ x ∈ m, x.2.guild_id = x.1

/-! Helper lemmas shared by the claim theorems. -/

/-- Characterization of the `Lavalink::best` loop: either no element beats
the initial `lowest` and the accumulator is returned unchanged, or the
result is the first element whose penalty attains the strict minimum of
the list (below `lowest`): every earlier penalty is strictly larger and
every penalty of the list is at least it. -/
theorem bestLoop_spec (ns : List (Addr × NodePenalty)) :
    ∀ (lowest : Int) (acc : Option Addr),
      (bestLoop ns lowest acc = (lowest, acc) ∧ ∀ q ∈ ns.map Prod.snd, lowest ≤ q) ∨
      (∃ pre a m suf, ns = pre ++ (a, m) :: suf ∧
        bestLoop ns lowest acc = (m, some a) ∧ m < lowest ∧
        (∀ q ∈ ns.map Prod.snd, m ≤ q) ∧ (∀ q ∈ pre.map Prod.snd, m < q)) := by
  induction ns with
  | nil => intro lowest acc; left; exact ⟨rfl, by simp⟩
  | cons hd tl ih =>
    intro lowest acc
    obtain ⟨a, p⟩ := hd
    by_cases hp : p < lowest
    · rcases ih p (some a) with ⟨h1, h2⟩ | ⟨pre, a', m', suf, hdec, hres, hlt, hall, hpre⟩
      · right
        refine ⟨[], a, p, tl, by simp, ?_, hp, ?_, by simp⟩
        · simp [bestLoop, hp, h1]
        · intro q hq
          rcases (by simpa using hq : q = p ∨ q ∈ tl.map Prod.snd) with h | h
          · exact le_of_eq h.symm
          · exact h2 q h
      · right
        refine ⟨(a, p) :: pre, a', m', suf, by simp [hdec], ?_, lt_trans hlt hp, ?_, ?_⟩
        · simp [bestLoop, hp, hres]
        · intro q hq
          rcases (by simpa using hq : q = p ∨ q ∈ tl.map Prod.snd) with h | h
          · exact le_of_lt (h ▸ hlt)
          · exact hall q h
        · intro q hq
          rcases (by simpa using hq : q = p ∨ q ∈ pre.map Prod.snd) with h | h
          · exact h ▸ hlt
          · exact hpre q h
    · rcases ih lowest acc with ⟨h1, h2⟩ | ⟨pre, a', m', suf, hdec, hres, hlt, hall, hpre⟩
      · left
        refine ⟨by simp [bestLoop, hp, h1], ?_⟩
        intro q hq
        rcases (by simpa using hq : q = p ∨ q ∈ tl.map Prod.snd) with h | h
        · exact h ▸ le_of_not_lt hp
        · exact h2 q h
      · right
        refine ⟨(a, p) :: pre, a', m', suf, by simp [hdec], ?_, hlt, ?_, ?_⟩
        · simp [bestLoop, hp, hres]
        · intro q hq
          rcases (by simpa using hq : q = p ∨ q ∈ tl.map Prod.snd) with h | h
          · exact le_of_lt (lt_of_lt_of_le hlt (h ▸ le_of_not_lt hp))
          · exact hall q h
        · intro q hq
          rcases (by simpa using hq : q = p ∨ q ∈ pre.map Prod.snd) with h | h
          · exact h ▸ lt_of_lt_of_le hlt (le_of_not_lt hp)
          · exact hpre q h

/-- `best` fails precisely when every registered penalty is at least
`i32::MAX` (in particular when there is no node at all). -/
theorem best_error_iff (ns : List (Addr × NodePenalty)) :
    best ns = .error .nodesUnconfigured ↔ ∀ q ∈ ns.map Prod.snd, i32Max ≤ q := by
  rcases bestLoop_spec ns i32Max none with ⟨h1, h2⟩ | ⟨pre, a, m, suf, hdec, hres, hlt, hall, hpre⟩
  · constructor
    · intro _; exact h2
    · intro _; simp [best, h1]
  · constructor
    · intro herr
      exfalso
      simp [best, hres] at herr
    · intro hge
      exfalso
      have hm : m ∈ ns.map Prod.snd := by simp [hdec]
      exact absurd (hge m hm) (not_le.mpr hlt)

/-- A successful `best` returns the first node attaining the strict
minimum penalty over the list. -/
theorem best_ok_decomp (ns : List (Addr × NodePenalty)) (a : Addr)
    (h : best ns = .ok a) :
    ∃ pre m suf, ns = pre ++ (a, m) :: suf ∧
      (∀ q ∈ ns.map Prod.snd, m ≤ q) ∧ (∀ q ∈ pre.map Prod.snd, m < q) := by
  rcases bestLoop_spec ns i32Max none with ⟨h1, _⟩ | ⟨pre, a', m, suf, hdec, hres, _, hall, hpre⟩
  · simp [best, h1] at h
  · have : a' = a := by simpa [best, hres] using h
    exact ⟨pre, m, suf, this ▸ hdec, hall, hpre⟩

/-- The only error `best` can return is `NodesUnconfigured`. -/
theorem best_error_elim (ns : List (Addr × NodePenalty)) (e : ClientError)
    (h : best ns = .error e) : e = .nodesUnconfigured := by
  unfold best at h
  split at h
  · cases h
  · cases h; rfl

/-- Filtering key `a` out of an association list does not change lookups
at other keys. -/
theorem lookup_filter_ne {β : Type} (l : List (Nat × β)) (a b : Nat) (h : b ≠ a) :
    (l.filter (fun x => x.1 ≠ a)).lookup b = l.lookup b := by
  induction l with
  | nil => rfl
  | cons hd tl ih =>
    obtain ⟨k, v⟩ := hd
    rw [List.filter_cons]
    by_cases hk : k = a
    · subst hk
      rw [if_neg (by simp), ih, List.lookup_cons, beq_false_of_ne h]
    · rw [if_pos (by simpa using hk), List.lookup_cons, List.lookup_cons]
      by_cases hbk : b = k
      · subst hbk; rw [beq_iff_eq.mpr rfl]
      · rw [beq_false_of_ne hbk, ih]

/-- Filtering key `a` out of an association list removes it from lookup. -/
theorem lookup_filter_self {β : Type} (l : List (Nat × β)) (a : Nat) :
    (l.filter (fun x => x.1 ≠ a)).lookup a = none := by
  induction l with
  | nil => rfl
  | cons hd tl ih =>
    obtain ⟨k, v⟩ := hd
    rw [List.filter_cons]
    by_cases hk : k = a
    · subst hk; rw [if_neg (by simp)]; exact ih
    · rw [if_pos (by simpa using hk), List.lookup_cons,
        beq_false_of_ne (fun he => hk he.symm)]
      exact ih

/-- If a key does not resolve, no entry of the list carries it. -/
theorem lookup_eq_none_forall {β : Type} (l : List (Nat × β)) (a : Nat)
    (h : l.lookup a = none) : ∀ x ∈ l, x.1 ≠ a := by
  induction l with
  | nil => intro x hx; cases hx
  | cons hd tl ih =>
    obtain ⟨k, v⟩ := hd
    rw [List.lookup_cons] at h
    intro x hx
    by_cases hak : a = k
    · rw [beq_iff_eq.mpr hak] at h; cases h
    · rw [beq_false_of_ne hak] at h
      rcases List.mem_cons.mp hx with rfl | hx'
      · exact fun he => hak he.symm
      · exact ih h x hx'

/-- Monotonicity of the modelled penalty in the playing-player count. -/
theorem penalty_mono_players (s : Stats) (p1 p2 : Nat) (h : p1 ≤ p2) :
    penalty { s with playing_players := p1 } ≤ penalty { s with playing_players := p2 } := by
  unfold penalty
  simp only
  have : (p1 : ℤ) ≤ (p2 : ℤ) := by exact_mod_cast h
  omega

/-- Monotonicity of the modelled penalty in the system CPU load. -/
theorem penalty_mono_cpu (s : Stats) (l1 l2 : ℚ) (h : l1 ≤ l2) :
    penalty { s with cpu := { s.cpu with system_load := l1 } }
      ≤ penalty { s with cpu := { s.cpu with system_load := l2 } } := by
  have hr : (l1 : ℝ) ≤ (l2 : ℝ) := by exact_mod_cast h
  have hc : cpuPenalty (l1 : ℝ) ≤ cpuPenalty (l2 : ℝ) := by
    unfold cpuPenalty
    gcongr
    all_goals norm_num
  unfold penalty
  simp only
  have := Int.floor_le_floor hc
  omega

/-- Monotonicity of the modelled penalty in the deficit-frame count. -/
theorem penalty_mono_deficit (s : Stats) (f : StatsFrames) (d1 d2 : Nat) (h : d1 ≤ d2) :
    penalty { s with frames := some { f with deficit := d1 } }
      ≤ penalty { s with frames := some { f with deficit := d2 } } := by
  have hd : deficitPenalty (some { f with deficit := d1 })
      ≤ deficitPenalty (some { f with deficit := d2 }) := by
    unfold deficitPenalty
    simp only
    have hc : (d1 : ℝ) ≤ (d2 : ℝ) := by exact_mod_cast h
    gcongr
    all_goals norm_num
  have hn : nulledPenalty (some { f with deficit := d1 })
      = nulledPenalty (some { f with deficit := d2 }) := rfl
  unfold penalty
  simp only
  have := Int.floor_le_floor hd
  rw [hn]
  omega

/-- Monotonicity of the modelled penalty in the nulled-frame count. -/
theorem penalty_mono_nulled (s : Stats) (f : StatsFrames) (n1 n2 : Nat) (h : n1 ≤ n2) :
    penalty { s with frames := some { f with nulled := n1 } }
      ≤ penalty { s with frames := some { f with nulled := n2 } } := by
  have hd : nulledPenalty (some { f with nulled := n1 })
      ≤ nulledPenalty (some { f with nulled := n2 }) := by
    unfold nulledPenalty
    simp only
    have hc : (n1 : ℝ) ≤ (n2 : ℝ) := by exact_mod_cast h
    gcongr
    all_goals norm_num
  have hn : deficitPenalty (some { f with nulled := n1 })
      = deficitPenalty (some { f with nulled := n2 }) := rfl
  unfold penalty
  simp only
  have := Int.floor_le_floor hd
  rw [hn]
  omega

/-! Claim theorems, witnesses and counterexamples. -/

/-- Claim C1 (corrected): `best()` returns `Err(NodesUnconfigured)` iff every
registered node's penalty is at least `i32::MAX` — in particular when no node
is registered, but also when nodes are registered whose penalty is the worst
possible score, because the loop only takes penalties strictly below the
initial `lowest = i32::MAX`; whenever `best()` succeeds it returns a
registered node. -/
theorem c1_best_error_characterization (ns : List (Addr × NodePenalty)) :
    (best ns = .error .nodesUnconfigured ↔ ∀ q ∈ ns.map Prod.snd, i32Max ≤ q) ∧
    (∀ a, best ns = .ok a → a ∈ ns.map Prod.fst) := by
  refine ⟨best_error_iff ns, ?_⟩
  intro a h
  obtain ⟨pre, m, suf, hdec, -, -⟩ := best_ok_decomp ns a h
  simp [hdec]

/-- Witness for C1: on a one-node registry with penalty 3, `best()` succeeds
and returns that registered node. -/
theorem c1_best_error_characterization_witness : (5 : Addr) ∈ ([((5 : Addr), (3 : Int))].map Prod.fst) :=
  (c1_best_error_characterization _).2 5 rfl

/-- Counterexample to C1 as stated: a single registered node whose cached
statistics are absent carries the worst possible score `i32::MAX`
(spec §4.3), and `best()` then returns `Err(NodesUnconfigured)` even though
a node is registered. -/
theorem c1_counterexample :
    best [((0 : Addr), nodePenalty none)] = .error .nodesUnconfigured ∧
    ([((0 : Addr), nodePenalty none)] : List (Addr × NodePenalty)) ≠ [] :=
  ⟨rfl, by simp⟩

/-- Claim C3 (confirmed): whenever `best()` returns `Ok(node)`, that node is
registered, its penalty is a minimum over all registered penalties, and it
is the first node in iteration order attaining that minimum (every earlier
node has strictly larger penalty). -/
theorem c3_best_ok_first_minimum (ns : List (Addr × NodePenalty)) (a : Addr)
    (h : best ns = .ok a) :
    ∃ pre m suf, ns = pre ++ (a, m) :: suf ∧
      (∀ q ∈ ns.map Prod.snd, m ≤ q) ∧ (∀ q ∈ pre.map Prod.snd, m < q) :=
  best_ok_decomp ns a h

/-- Witness for C3: on penalties `[5, 3, 3]` `best()` returns the second node,
the first of the two tied minima. -/
theorem c3_best_ok_first_minimum_witness :
    ∃ pre m suf,
      ([((7 : Addr), (5 : Int)), (8, 3), (9, 3)] : List (Addr × NodePenalty))
        = pre ++ ((8 : Addr), m) :: suf ∧
      (∀ q ∈ ([((7 : Addr), (5 : Int)), (8, 3), (9, 3)] : List (Addr × NodePenalty)).map Prod.snd, m ≤ q) ∧
      (∀ q ∈ pre.map Prod.snd, m < q) :=
  c3_best_ok_first_minimum _ 8 rfl

/-- Claim C4 (corrected): `player(guild)` returns an existing player
unchanged without consulting the node registry (so it succeeds with zero
nodes registered); when the player must be created, it fails with
`NodesUnconfigured` iff every registered node's penalty is at least
`i32::MAX` — not exactly when no node is registered, since `best()` also
fails on a registry of worst-score nodes. -/
theorem c4_player_get_or_create (st : LavalinkState) (g : GuildId) :
    (∀ p, pmGet st.players g = some p → playerOp st g = (.ok p, st)) ∧
    (pmGet st.players g = none →
      ((playerOp st g).1 = .error .nodesUnconfigured ↔
        ∀ q ∈ st.nodes.map Prod.snd, i32Max ≤ q)) := by
  constructor
  · intro p hp; simp [playerOp, hp]
  · intro hn
    constructor
    · intro herr
      cases hb : best st.nodes with
      | error e =>
        have he := best_error_elim st.nodes e hb
        subst he
        exact (best_error_iff st.nodes).mp hb
      | ok nd => exact absurd herr (by simp [playerOp, hn, hb])
    · intro hw
      have hb := (best_error_iff st.nodes).mpr hw
      simp [playerOp, hn, hb]

/-- Counterexample to C4 as stated: with a player absent and one registered
node whose statistics are absent (worst score), `player` fails with
`NodesUnconfigured` although a node is registered. -/
theorem c4_counterexample :
    (playerOp ⟨[((0 : Addr), nodePenalty none)], []⟩ 1).1 = .error .nodesUnconfigured ∧
    (⟨[((0 : Addr), nodePenalty none)], []⟩ : LavalinkState).nodes ≠ [] ∧
    pmGet (⟨[((0 : Addr), nodePenalty none)], []⟩ : LavalinkState).players 1 = none :=
  ⟨rfl, by simp, rfl⟩

/-- Witness for C4: with zero nodes registered, `player` returns the
existing player for guild 1 and leaves the state unchanged. -/
theorem c4_player_get_or_create_witness :
    playerOp ⟨[], [(1, Player.new 1 0)]⟩ 1
      = (.ok (Player.new 1 0), ⟨[], [(1, Player.new 1 0)]⟩) :=
  (c4_player_get_or_create _ 1).1 _ rfl

/-- Claim C5 (confirmed): `add_with_resume` on handshake failure returns the
connection error and leaves the whole state untouched (a previously
registered node at the address remains); on success it replaces the entry
at that address, leaving every other address and the player registry
unchanged. -/
theorem c5_add_with_resume_spec (st : LavalinkState) (a : Addr) :
    (addWithResume st a none = (.error .connectionError, st)) ∧
    (∀ n : NodePenalty,
      ((addWithResume st a (some n)).1 = .ok n) ∧
      ((addWithResume st a (some n)).2.nodes.lookup a = some n) ∧
      (∀ b, b ≠ a → (addWithResume st a (some n)).2.nodes.lookup b = st.nodes.lookup b) ∧
      ((addWithResume st a (some n)).2.players = st.players)) := by
  refine ⟨rfl, ?_⟩
  intro n
  refine ⟨rfl, ?_, ?_, rfl⟩
  · show (((a, n) :: st.nodes.filter (fun x => x.1 ≠ a)) : List (Addr × NodePenalty)).lookup a = some n
    rw [List.lookup_cons, beq_iff_eq.mpr rfl]
  · intro b hb
    show (((a, n) :: st.nodes.filter (fun x => x.1 ≠ a)) : List (Addr × NodePenalty)).lookup b = st.nodes.lookup b
    rw [List.lookup_cons, beq_false_of_ne hb]
    exact lookup_filter_ne st.nodes a b hb

/-- Witness for C5: adding at address 2 leaves the lookup at address 3
unchanged. -/
theorem c5_add_with_resume_spec_witness :
    (addWithResume ⟨[((2 : Addr), (9 : Int))], []⟩ 2 (some 4)).2.nodes.lookup 3
      = (⟨[((2 : Addr), (9 : Int))], []⟩ : LavalinkState).nodes.lookup 3 :=
  ((c5_add_with_resume_spec _ 2).2 4).2.2.1 3 (by decide)

/-- Claim C6 (confirmed): `get_or_insert` on a guild that already has a
player returns that same player with the registry unchanged, so the node
binding fixed at creation survives a get-or-create against any other node. -/
theorem c6_get_or_insert_existing (m : PlayerMap) (g : GuildId) (p : Player) (node : Addr)
    (h : pmGet m g = some p) :
    pmGetOrInsert m g node = (p, m) ∧ (pmGetOrInsert m g node).1.node = p.node := by
  unfold pmGet at h
  have he : pmGetOrInsert m g node = (p, m) := by simp [pmGetOrInsert, h]
  exact ⟨he, by rw [he]⟩

/-- Witness for C6: get-or-create with node 5 returns the original player
still bound to node 0. -/
theorem c6_get_or_insert_existing_witness :
    pmGetOrInsert [(1, Player.new 1 0)] 1 5 = (Player.new 1 0, [(1, Player.new 1 0)]) ∧
    (pmGetOrInsert [(1, Player.new 1 0)] 1 5).1.node = (Player.new 1 0).node :=
  c6_get_or_insert_existing _ 1 _ 5 rfl

/-- Claim C7 (confirmed): removing a node by address removes exactly that
entry from the node registry — it is no longer found by `get` and can no
longer be returned by `best()` — while every other node entry and the whole
guild-player registry are unchanged. -/
theorem c7_remove_node_frame (st : LavalinkState) (a : Addr) :
    (getNode (removeNode st a).2 a = none) ∧
    (∀ b, b ≠ a → getNode (removeNode st a).2 b = getNode st b) ∧
    ((removeNode st a).2.players = st.players) ∧
    (∀ x, best (removeNode st a).2.nodes = .ok x → x ≠ a) := by
  cases h : st.nodes.lookup a with
  | none =>
    have hr : removeNode st a = (none, st) := by simp [removeNode, h]
    rw [hr]
    refine ⟨h, fun b _ => rfl, rfl, ?_⟩
    intro x hx
    obtain ⟨pre, m, suf, hdec, -, -⟩ := best_ok_decomp _ x hx
    have hmem : (x, m) ∈ st.nodes := by
      have : st.nodes = pre ++ (x, m) :: suf := hdec
      rw [this]; simp
    exact lookup_eq_none_forall st.nodes a h (x, m) hmem
  | some p =>
    have hr : removeNode st a =
        (some (a, p), { st with nodes := st.nodes.filter (fun x => x.1 ≠ a) }) := by
      simp [removeNode, h]
    rw [hr]
    refine ⟨lookup_filter_self st.nodes a, ?_, rfl, ?_⟩
    · intro b hb; exact lookup_filter_ne st.nodes a b hb
    · intro x hx
      obtain ⟨pre, m, suf, hdec, -, -⟩ := best_ok_decomp _ x hx
      have hmem : (x, m) ∈ st.nodes.filter (fun y => y.1 ≠ a) := by
        have : st.nodes.filter (fun y => y.1 ≠ a) = pre ++ (x, m) :: suf := hdec
        rw [this]; simp
      have := List.of_mem_filter hmem
      simpa using this

/-- Witness for C7: removing address 2 leaves the lookup of address 3
unchanged. -/
theorem c7_remove_node_frame_witness :
    getNode (removeNode ⟨[((2 : Addr), (9 : Int)), (3, 7)], []⟩ 2).2 3
      = getNode ⟨[((2 : Addr), (9 : Int)), (3, 7)], []⟩ 3 :=
  (c7_remove_node_frame _ 2).2.1 3 (by decide)

/-- Claim C9 (confirmed): a player newly created by get-or-create for an
absent guild starts with time 0, position `None`, paused `false`, volume 0,
and a filter state in which every filter is disabled with zeroed parameters
and an empty equalizer band list. -/
theorem c9_new_player_defaults (m : PlayerMap) (g : GuildId) (node : Addr)
    (h : pmGet m g = none) :
    ((pmGetOrInsert m g node).1.guild_id = g) ∧
    ((pmGetOrInsert m g node).1.node = node) ∧
    ((pmGetOrInsert m g node).1.time = 0) ∧
    ((pmGetOrInsert m g node).1.position = none) ∧
    ((pmGetOrInsert m g node).1.paused = false) ∧
    ((pmGetOrInsert m g node).1.volume = 0) ∧
    ((pmGetOrInsert m g node).1.filters = FiltersState.new) ∧
    (FiltersState.new.karaoke = ⟨0, 0, 0, 0, false⟩) ∧
    (FiltersState.new.timescale = ⟨0, 0, 0, false⟩) ∧
    (FiltersState.new.tremolo = ⟨0, 0, false⟩) ∧
    (FiltersState.new.vibrato = ⟨0, 0, false⟩) ∧
    (FiltersState.new.equalizer = ⟨[], false⟩) := by
  unfold pmGet at h
  have he : pmGetOrInsert m g node = (Player.new g node, (g, Player.new g node) :: m) := by
    simp [pmGetOrInsert, h]
  rw [he]
  exact ⟨rfl, rfl, rfl, rfl, rfl, rfl, rfl, rfl, rfl, rfl, rfl, rfl⟩

/-- Witness for C9: creating a player for guild 1 on node 2 in the empty
registry yields exactly the default fields. -/
theorem c9_new_player_defaults_witness :
    ((pmGetOrInsert ([] : PlayerMap) 1 2).1.guild_id = 1) ∧
    ((pmGetOrInsert ([] : PlayerMap) 1 2).1.node = 2) ∧
    ((pmGetOrInsert ([] : PlayerMap) 1 2).1.time = 0) ∧
    ((pmGetOrInsert ([] : PlayerMap) 1 2).1.position = none) ∧
    ((pmGetOrInsert ([] : PlayerMap) 1 2).1.paused = false) ∧
    ((pmGetOrInsert ([] : PlayerMap) 1 2).1.volume = 0) ∧
    ((pmGetOrInsert ([] : PlayerMap) 1 2).1.filters = FiltersState.new) ∧
    (FiltersState.new.karaoke = ⟨0, 0, 0, 0, false⟩) ∧
    (FiltersState.new.timescale = ⟨0, 0, 0, false⟩) ∧
    (FiltersState.new.tremolo = ⟨0, 0, false⟩) ∧
    (FiltersState.new.vibrato = ⟨0, 0, false⟩) ∧
    (FiltersState.new.equalizer = ⟨[], false⟩) :=
  c9_new_player_defaults ([] : PlayerMap) 1 2 rfl

/-- Claim C10 (confirmed): every stored player's `guild_id` equals the guild
key it is stored under — true of the empty registry and preserved by
`get_or_insert` and `remove` (`get` performs no mutation). -/
theorem c10_registry_key_invariant :
    pmInvariant [] ∧
    (∀ m g node, pmInvariant m → pmInvariant (pmGetOrInsert m g node).2) ∧
    (∀ m g, pmInvariant m → pmInvariant (pmRemove m g).2) := by
  refine ⟨?_, ?_, ?_⟩
  · intro x hx; cases hx
  · intro m g node hm
    unfold pmGetOrInsert
    cases h : m.lookup g with
    | some p => exact hm
    | none =>
      intro x hx
      rcases List.mem_cons.mp hx with rfl | hx'
      · rfl
      · exact hm x hx'
  · intro m g hm
    unfold pmRemove
    cases h : m.lookup g with
    | some p =>
      intro x hx
      exact hm x (List.mem_of_mem_filter hx)
    | none => exact hm

/-- Witness for C10: the invariant holds after inserting a player for
guild 1 into the empty registry. -/
theorem c10_registry_key_invariant_witness : pmInvariant (pmGetOrInsert ([] : PlayerMap) 1 2).2 :=
  c10_registry_key_invariant.2.1 ([] : PlayerMap) 1 2 c10_registry_key_invariant.1

/-- Claim C8 (confirmed, penalty modelled from the spec as the node module is
not among the sources): `penalty` is a pure total function of the snapshot
equal to `playingPlayerCount + floor(10*1.05^(100*systemCpuLoad) - 10) +
floor(300*1.03^(500*deficitFrames/3000) - 300) +
floor(2*(300*1.03^(500*nulledFrames/3000) - 300))`, with both frame terms
`0` when no frame statistics are present, and it is monotonically
non-decreasing in playing-player count, system CPU load, deficit-frame
count, and nulled-frame count, each varied independently. -/
theorem c8_penalty_formula_mono :
    (∀ s : Stats, penalty s =
      (s.playing_players : ℤ)
      + ⌊(10 : ℝ) * (1.05 : ℝ) ^ ((100 : ℝ) * (s.cpu.system_load : ℝ)) - 10⌋
      + (match s.frames with
         | none => 0
         | some f => ⌊(300 : ℝ) * (1.03 : ℝ) ^ ((500 : ℝ) * (f.deficit : ℝ) / 3000) - 300⌋)
      + (match s.frames with
         | none => 0
         | some f => ⌊(2 : ℝ) * ((300 : ℝ) * (1.03 : ℝ) ^ ((500 : ℝ) * (f.nulled : ℝ) / 3000) - 300)⌋)) ∧
    (∀ (s : Stats) (p1 p2 : Nat), p1 ≤ p2 →
      penalty { s with playing_players := p1 } ≤ penalty { s with playing_players := p2 }) ∧
    (∀ (s : Stats) (l1 l2 : ℚ), l1 ≤ l2 →
      penalty { s with cpu := { s.cpu with system_load := l1 } }
        ≤ penalty { s with cpu := { s.cpu with system_load := l2 } }) ∧
    (∀ (s : Stats) (f : StatsFrames) (d1 d2 : Nat), d1 ≤ d2 →
      penalty { s with frames := some { f with deficit := d1 } }
        ≤ penalty { s with frames := some { f with deficit := d2 } }) ∧
    (∀ (s : Stats) (f : StatsFrames) (n1 n2 : Nat), n1 ≤ n2 →
      penalty { s with frames := some { f with nulled := n1 } }
        ≤ penalty { s with frames := some { f with nulled := n2 } }) := by
  refine ⟨?_, penalty_mono_players, penalty_mono_cpu, penalty_mono_deficit, penalty_mono_nulled⟩
  intro s
  cases hf : s.frames with
  | none => simp [penalty, cpuPenalty, deficitPenalty, nulledPenalty, hf]
  | some f => simp [penalty, cpuPenalty, deficitPenalty, nulledPenalty, hf]

/-- Witness for C8: the penalty with 0 playing players is at most the penalty
with 3 playing players on an otherwise identical snapshot. -/
theorem c8_penalty_formula_mono_witness :
    penalty ⟨.stats, 0, 0, 0, ⟨0, 0, 0, 0⟩, ⟨0, 0, 0⟩, none⟩
      ≤ penalty ⟨.stats, 0, 3, 0, ⟨0, 0, 0, 0⟩, ⟨0, 0, 0⟩, none⟩ :=
  c8_penalty_formula_mono.2.1 ⟨.stats, 0, 0, 0, ⟨0, 0, 0, 0⟩, ⟨0, 0, 0⟩, none⟩ 0 3 (by norm_num)

/-- Counterexample to C2 as stated: serializing `Pause` and parsing the
result yields a `Stop` value, not the original `Pause`. -/
theorem c2_counterexample :
    parseOutgoingEvent (serOutgoingEvent (.pause ⟨.pause, 1, true⟩))
      = some (.stop ⟨.pause, 1⟩) ∧
    parseOutgoingEvent (serOutgoingEvent (.pause ⟨.pause, 1, true⟩))
      ≠ some (.pause ⟨.pause, 1, true⟩) :=
  ⟨rfl, by decide⟩

set_option maxHeartbeats 2000000 in
/-- Claim C2 (corrected): serialize-then-parse is the identity only for
`VoiceUpdate`, `Play` and `Stop`; every other command (`Pause`, `Seek`,
`Volume`, `Filters`, `Destroy`) parses back as the earlier untagged variant
`Stop`, whose required fields (`op`, `guildId`) are a subset of the
payload's and whose deserializer ignores the extra fields, retaining only
`op` and `guild_id`. -/
theorem c2_roundtrip_amended (e : OutgoingEvent) :
    parseOutgoingEvent (serOutgoingEvent e) = some (roundTripResult e) := by
  cases e with
  | voiceUpdate v =>
    obtain ⟨op, sid, g, ep, tok⟩ := v
    cases op <;> cases ep <;> rfl
  | play p =>
    obtain ⟨op, g, tr, st, et, nr⟩ := p
    cases op <;> cases st <;> cases et <;> rfl
  | stop s => obtain ⟨op, g⟩ := s; cases op <;> rfl
  | pause p => obtain ⟨op, g, b⟩ := p; cases op <;> rfl
  | seek s => obtain ⟨op, g, pos⟩ := s; cases op <;> rfl
  | volume v => obtain ⟨op, g, vol⟩ := v; cases op <;> rfl
  | filters f =>
    obtain ⟨op, g, k, ts, tr, vb, eq⟩ := f
    cases op <;> cases k <;> cases ts <;> cases tr <;> cases vb <;> cases eq <;> rfl
  | destroy d => obtain ⟨op, g⟩ := d; cases op <;> rfl

end Andesite
